import Mathlib

/-!
Verification of the tunnel-session engine of the Reverse-Proxy repository.

The development shallowly embeds the relevant Go source:
* `src/src/frp/utils/conn/conn.go` — the framed, encrypted relay path
  (`pkgMsg`, `unpkgMsg`, `PipeEncrypt`, `PipeDecrypt`);
* `src/pkg/ssh/service.go` — the control-channel service: the sideband
  payload filter and extraction (`loopParseExtraPayload`), the command
  parsers (`parseSSHExtraMessage`, `ParseTCPCommand`, `ParseHTTPCommand`
  together with Go's `flag` package semantics), the pairing loop
  (`loopGenerateProxy`) and session close (`Close`).

Bytes are modelled as `Nat` values (the Go code only ever compares and
slices them); machine-width arithmetic (`uint32`) is made explicit with
`% 2 ^ 32`.  Fallible Go code returns `Option`/`Except`; a Go runtime
panic is modelled as `Option.none` at the point where it would occur.
Byte-to-string conversion is modelled for the ASCII range (one byte, one
character), which covers the protocol's command strings.
-/

/-- Big-endian 32-bit decode of a 4-byte list, `binary.BigEndian.Uint32`.
Only applied to lists of length 4 in the development. -/
def be32 (bs : List Nat) : Nat :=
  match bs with
  | [b0, b1, b2, b3] => ((b0 * 256 + b1) * 256 + b2) * 256 + b3
  | _ => 0

/-- Big-endian 32-bit encode, `binary.Write(buf, binary.BigEndian, llen)` for a
`uint32` length (the Go length is first truncated by the `uint32(...)` cast). -/
def be32enc (n : Nat) : List Nat :=
  let m := n % 2 ^ 32
  [m / 2 ^ 24 % 256, m / 2 ^ 16 % 256, m / 2 ^ 8 % 256, m % 256]

/-- `strings.Contains(string(hay), string(needle))` at the byte level. -/
def containsSub (hay needle : List Nat) : Bool :=
  match hay with
  | [] => needle.isEmpty
  | _ :: t => needle.isPrefixOf hay || containsSub t needle

/-- The bytes of the substring "tcp". -/
def tcpBytes : List Nat := [116, 99, 112]

/-- The bytes of the substring "http". -/
def httpBytes : List Nat := [104, 116, 116, 112]

/-! ## Framed relay path (`src/src/frp/utils/conn/conn.go`) -/

/-- `pkgMsg`: prefix `data` with the 4-byte big-endian encoding of its length. -/
def pkgMsg (data : List Nat) : List Nat :=
  be32enc data.length ++ data

/-- `unpkgMsg`: try to take one complete length-prefixed frame off `data`.
`none` models the Go return `(-1, nil, nil)` (no complete frame yet);
`some (frame, rest)` models `(0, data[4:llen+4], data[llen+4:])`. -/
def unpkgMsg (data : List Nat) : Option (List Nat × List Nat) :=
  if data.length < 4 then none
  else
    let llen := be32 (data.take 4)
    if data.length < llen + 4 then none
    else some ((data.drop 4).take llen, data.drop (llen + 4))

/-- `PipeEncrypt`: each chunk delivered by a read of the source is encrypted
(`enc` stands for the external `pcrypto` cipher, which is outside this
repository) and written as one length-prefixed frame.  The result is the whole
byte stream written to the destination for a given sequence of reads. -/
def PipeEncrypt (enc : List Nat → List Nat) (reads : List (List Nat)) : List Nat :=
  (reads.map fun c => pkgMsg (enc c)).flatten

/-- `PipeDecrypt`, embedded faithfully with the source's variable shadowing:
`left := append(left, buf[:n]...)` and `cnt, buf, left := unpkgMsg(left)`
redeclare `left`, so the outer accumulator declared by `var left []byte` is
never updated.  Each underlying read is therefore processed in isolation: a
read holding no complete frame is dropped (`continue`), and of a read holding
one or more complete frames only the first frame is decrypted (`dec` stands
for the external `pcrypto` cipher) and its remainder is dropped.  The result
is the whole plaintext written to the destination for a given sequence of
reads. -/
def PipeDecrypt (dec : List Nat → List Nat) (reads : List (List Nat)) : List Nat :=
  reads.foldl
    (fun out r =>
      match unpkgMsg r with
      | none => out
      | some (frame, _) => out ++ dec frame)
    []

/-! ## Sideband payload handling (`loopParseExtraPayload`, `service.go`) -/

/-- The guard in `loopParseExtraPayload` before a sideband request payload is
decoded: the payload must be longer than 4 bytes and the WHOLE payload (the
4-byte length prefix included) must contain "tcp" or "http" as a substring. -/
def passesFilter (payload : List Nat) : Bool :=
  decide (4 < payload.length) &&
    (containsSub payload tcpBytes || containsSub payload httpBytes)

/-- Extraction of the command string from a sideband payload:
`end := 4 + binary.BigEndian.Uint32(r.Payload[:4])` in `uint32` arithmetic,
truncated to `uint32(len(r.Payload))` when larger, followed by the Go slice
`r.Payload[4:end]`.  The slice panics unless `4 ≤ end ∧ end ≤ len(r.Payload)`;
the panic is modelled as `none`. -/
def extractCommand (payload : List Nat) : Option (List Nat) :=
  let e0 := (4 + be32 (payload.take 4)) % 2 ^ 32
  let lenU := payload.length % 2 ^ 32
  let e := if lenU < e0 then lenU else e0
  if 4 ≤ e ∧ e ≤ payload.length then some ((payload.drop 4).take (e - 4)) else none

/-- The condition under which `loopParseExtraPayload` invokes
`parseSSHExtraMessage` on a sideband request payload: the payload passes the
substring filter and the command-string slice does not panic. -/
def reachesParse (payload : List Nat) : Bool :=
  passesFilter payload && (extractCommand payload).isSome

/-! ## Command grammar (`service.go`, Go `flag` package semantics) -/

/-- Split a character list at the first occurrence of `c`:
`some (before, after)` when `c` occurs, `none` otherwise. -/
def findSplit (c : Char) : List Char → Option (List Char × List Char)
  | [] => none
  | d :: rest =>
    if d = c then some ([], rest)
    else
      match findSplit c rest with
      | none => none
      | some (a, b) => some (d :: a, b)

/-- Result of `flag.FlagSet.Parse` restricted to string flags, as used by
`ParseTCPCommand` and `ParseHTTPCommand`: `ok` terminates normally with the
values set so far, `errHelp` is `flag.ErrHelp` (both callers swallow it and
keep the values set so far), `fatal` is any other parse error. -/
inductive FlagResult where
  | ok (vals : List (String × String))
  | errHelp (vals : List (String × String))
  | fatal (msg : String)
deriving DecidableEq

/-- Go `flag.FlagSet.Parse` over string flags named `known`: one `parseOne`
step per iteration.  A token shorter than two characters or not starting with
`-` terminates parsing; `--` alone terminates; `-name=value` sets directly;
otherwise the next token is consumed as the value.  An unknown flag is an
error, except `-h`/`-help` which is `flag.ErrHelp`. -/
def parseFlags (known : List String) : List String → List (String × String) → FlagResult
  | [], acc => .ok acc
  | s :: rest, acc =>
    let cs := s.toList
    if cs.length < 2 ∨ cs.head? ≠ some '-' then .ok acc
    else
      let isDouble := (cs.drop 1).head? = some '-'
      let nm := if isDouble then cs.drop 2 else cs.drop 1
      if isDouble ∧ nm = [] then .ok acc
      else if nm = [] ∨ nm.head? = some '-' ∨ nm.head? = some '=' then
        .fatal ("bad flag syntax: " ++ s)
      else
        let (namePart, valOpt) :=
          match findSplit '=' nm with
          | some (a, b) => (a, some b)
          | none => (nm, none)
        let name := String.mk namePart
        if known.contains name then
          match valOpt with
          | some v => parseFlags known rest ((name, String.mk v) :: acc)
          | none =>
            match rest with
            | [] => .fatal ("flag needs an argument: -" ++ name)
            | v :: rest2 => parseFlags known rest2 ((name, v) :: acc)
        else if name = "help" ∨ name = "h" then .errHelp acc
        else .fatal ("flag provided but not defined: -" ++ name)

/-- Current value of a string flag after parsing: the most recently set value,
or the registered default `""` if never set. -/
def getFlag (vals : List (String × String)) (name : String) : String :=
  match vals.find? fun kv => kv.1 = name with
  | some kv => kv.2
  | none => ""

/-- `TCPCommand` of `service.go`. -/
structure TCPCommand where
  Address : String
  Port : String
deriving DecidableEq

/-- `HTTPCommand` of `service.go`. -/
structure HTTPCommand where
  Domain : String
  BasicAuthUser : String
  BasicAuthPass : String
deriving DecidableEq

/-- `ParseTCPCommand` of `service.go`.  The calls to `net.ResolveIPAddr` and
`net.LookupPort` are external to the repository and are passed in as the
functions `resolve` and `lookup` (`none` models a resolution error). -/
def ParseTCPCommand (resolve : String → Option String) (lookup : String → Option Nat)
    (params : List String) : Except String TCPCommand :=
  if params.head? ≠ some "tcp" then .error "invalid TCP command"
  else if params.length = 1 then .ok ⟨"", ""⟩
  else
    match parseFlags ["address", "port"] (params.drop 1) [] with
    | .fatal e => .error e
    | .ok vals | .errHelp vals =>
      let address := getFlag vals "address"
      let port := getFlag vals "port"
      match resolve address with
      | none => .error "resolve ip error"
      | some parsedAddr =>
        match lookup port with
        | none => .error "lookup port error"
        | some _ => .ok ⟨parsedAddr, port⟩

/-- `ParseHTTPCommand` of `service.go`.  Note the source passes `params[2:]`
to `flag.Parse`, so flag scanning starts at the THIRD token. -/
def ParseHTTPCommand (params : List String) : Except String HTTPCommand :=
  if params.length < 2 then .error "invalid HTTP command"
  else
    match parseFlags ["basic-auth", "domain"] (params.drop 2) [] with
    | .fatal e => .error e
    | .ok vals | .errHelp vals =>
      let basicAuth := getFlag vals "basic-auth"
      let domainURL := getFlag vals "domain"
      let userPass :=
        if basicAuth = "" then ("", "")
        else
          match findSplit ':' basicAuth.toList with
          | none => (basicAuth, "")
          | some (a, b) => (String.mk a, String.mk b)
      .ok ⟨domainURL, userPass.1, userPass.2⟩

/-! ## `parseSSHExtraMessage` and the sideband reader (`service.go`) -/

/-- `ExtraPayload` of `service.go` (the Extra Command).  `Port` is a `uint32`
value. -/
structure ExtraPayload where
  «Type» : String
  Address : String
  Port : Nat
deriving DecidableEq

/-- Helper for `fields`: collect maximal runs of non-whitespace characters;
`cur` is the current token, reversed. -/
def fieldsAux : List Char → List Char → List (List Char)
  | cur, [] => if cur.isEmpty then [] else [cur.reverse]
  | cur, c :: rest =>
    if c.isWhitespace then
      if cur.isEmpty then fieldsAux [] rest
      else cur.reverse :: fieldsAux [] rest
    else fieldsAux (c :: cur) rest

/-- `strings.Fields`: the whitespace-separated tokens of `s`. -/
def fields (s : String) : List String :=
  (fieldsAux [] s.toList).map String.mk

/-- `strings.TrimSpace`: drop leading and trailing whitespace. -/
def trimStr (s : String) : String :=
  String.mk
    (((s.toList.dropWhile Char.isWhitespace).reverse.dropWhile Char.isWhitespace).reverse)

/-- `strconv.Atoi` as used in `port, _ := strconv.Atoi(...)`: the returned
value with the error discarded — `0` on a syntax error, the clamped boundary
value on 64-bit range overflow. -/
def atoiGo (s : String) : Int :=
  match s.toList with
  | [] => 0
  | c :: rest =>
    let signDigits :
        Bool × List Char :=
      if c = '-' then (true, rest) else if c = '+' then (false, rest) else (false, c :: rest)
    let neg := signDigits.1
    let digits := signDigits.2
    if digits.isEmpty ∨ ¬digits.all Char.isDigit then 0
    else
      let v : Int := Int.ofNat (digits.foldl (fun a d => a * 10 + (d.toNat - 48)) 0)
      let v := if neg then -v else v
      if v > 2 ^ 63 - 1 then 2 ^ 63 - 1
      else if v < -(2 ^ 63) then -(2 ^ 63)
      else v

/-- `parseSSHExtraMessage` of `service.go`: tokenize with `strings.Fields`
(falling back to the whole string when it has no fields but is nonempty),
trim each token, require the first token to be "tcp" or "http", and dispatch
to `ParseTCPCommand`/`ParseHTTPCommand`.  For "tcp" the resulting port string
goes through `strconv.Atoi` with the error ignored and a `uint32` cast; for
"http" the parsed command is discarded and only the kind is recorded.
`resolve`/`lookup` are the external `net` resolvers used by
`ParseTCPCommand`. -/
def parseSSHExtraMessage (resolve : String → Option String) (lookup : String → Option Nat)
    (s : String) : Except String ExtraPayload :=
  let ss0 := fields s
  let ss1 := if ss0.isEmpty then (if s.length ≠ 0 then [s] else []) else ss0
  match ss1.map trimStr with
  | [] => .error "invalid ssh input, args: []"
  | c :: rest =>
    if c ≠ "tcp" ∧ c ≠ "http" then .error "only support tcp/http now"
    else if c = "tcp" then
      match ParseTCPCommand resolve lookup (c :: rest) with
      | .error e => .error ("invalid ssh input: " ++ e)
      | .ok tcpCmd => .ok ⟨"tcp", tcpCmd.Address, (atoiGo tcpCmd.Port % (2 ^ 32 : Int)).toNat⟩
    else
      match ParseHTTPCommand (c :: rest) with
      | .error e => .error ("invalid ssh input: " ++ e)
      | .ok _ => .ok ⟨"http", "", 0⟩

/-- Digit-list value in base 10. -/
def natOfDigits (cs : List Char) : Nat :=
  cs.foldl (fun a c => a * 10 + (c.toNat - 48)) 0

/-- `strings.Split` on a single separator character. -/
def splitOnChar (c : Char) : List Char → List (List Char)
  | [] => [[]]
  | d :: rest =>
    let r := splitOnChar c rest
    if d = c then [] :: r
    else
      match r with
      | [] => [[d]]
      | t :: ts => (d :: t) :: ts

/-- One dotted-quad part: 1–3 digits, no leading zero, value at most 255. -/
def validOctet (cs : List Char) : Bool :=
  !cs.isEmpty && cs.all Char.isDigit && decide (cs.length ≤ 3) &&
    (decide (cs.length = 1) || decide (cs.head? ≠ some '0')) &&
    decide (natOfDigits cs ≤ 255)

/-- Modelled from the spec: `net.ResolveIPAddr` is outside the repository; the
spec says the address "must resolve as a valid IP".  Modelled as accepting the
empty string (Go resolves an empty host without error) and dotted-quad IPv4
literals, with no DNS lookup of host names. -/
def resolveIPAddr (s : String) : Option String :=
  if s = "" then some ""
  else
    let parts := splitOnChar '.' s.toList
    if decide (parts.length = 4) && parts.all validOctet then some s else none

/-- Modelled from the spec: `net.LookupPort` is outside the repository; the
spec says the port "must resolve as a valid TCP service name/number".
Modelled as accepting the empty string (Go returns port 0) and decimal numbers
up to 65535; named services are not modelled. -/
def lookupPort (s : String) : Option Nat :=
  if s = "" then some 0
  else
    let cs := s.toList
    if !cs.isEmpty && cs.all Char.isDigit && decide (natOfDigits cs ≤ 65535) then
      some (natOfDigits cs)
    else none

/-- Go `string(bytes)` restricted to the ASCII range: one byte, one character. -/
def strOfBytes (bs : List Nat) : String :=
  String.mk (bs.map Char.ofNat)

/-- ASCII bytes of a string. -/
def bytesOfStr (s : String) : List Nat :=
  s.toList.map Char.toNat

/-- A well-formed sideband request payload for command string `s`:
4-byte big-endian length prefix followed by the command bytes. -/
def mkSidebandPayload (s : String) : List Nat :=
  be32enc (bytesOfStr s).length ++ bytesOfStr s

/-- The per-channel sideband request reader started by `loopParseExtraPayload`,
as a function from the successive request payloads on the channel to the list
of Extra Commands it hands to the pairing loop.  A payload failing the filter
is skipped; a panic of the command-string slice (modelled `none`) kills the
reader; a parse failure continues with the next request; a successful parse
hands the command off and terminates the reader (`return`). -/
def sidebandReader (resolve : String → Option String) (lookup : String → Option Nat) :
    List (List Nat) → List ExtraPayload
  | [] => []
  | r :: rs =>
    if passesFilter r then
      match extractCommand r with
      | none => []
      | some cmd =>
        match parseSSHExtraMessage resolve lookup (strOfBytes cmd) with
        | .error _ => sidebandReader resolve lookup rs
        | .ok msg => [msg]
    else sidebandReader resolve lookup rs

/-! ## Pairing loop (`loopGenerateProxy`, `service.go`) -/

/-- `CmdPayload` of `service.go` (the Forward Request); `Port` is a `uint32`
value. -/
structure CmdPayload where
  Address : String
  Port : Nat
deriving DecidableEq

/-- The fields of `v1.TCPProxyConfig` set by `loopGenerateProxy`:
`Name`, `Type`, `ProxyBackend.LocalIP` and `RemotePort` (a Go `int`). -/
structure TCPProxyConfig where
  Name : String
  «Type» : String
  LocalIP : String
  RemotePort : Int
deriving DecidableEq

/-- Arrival order of the two halves of one pairing cycle: the Forward Request
first or the Extra Command first.  The two waiter tasks of the cycle read from
independent channels, so the barrier joins the same pair either way. -/
inductive PairArrival where
  | fwdFirst (p1 : CmdPayload) (p2 : ExtraPayload)
  | extraFirst (p2 : ExtraPayload) (p1 : CmdPayload)
deriving DecidableEq

/-- The barrier join (`wg.Wait()`) of one pairing cycle: both halves collected,
independent of arrival order. -/
def barrierJoin : PairArrival → CmdPayload × ExtraPayload
  | .fwdFirst p1 p2 => (p1, p2)
  | .extraFirst p2 p1 => (p1, p2)

/-- The emission step of one pairing cycle in `loopGenerateProxy`: the switch
on `p2.Type`.  "http" falls through with nothing, "tcp" sends one
`TCPProxyConfig` built from the Forward Request's address and port with the
name `"ssh-proxy-" + remoteAddr + "-" + timestamp`, anything else only logs a
warning. -/
def generateProxyCycle (remoteAddr : String) (ts : Int) (p1 : CmdPayload)
    (p2 : ExtraPayload) : List TCPProxyConfig :=
  if p2.«Type» = "http" then []
  else if p2.«Type» = "tcp" then
    [⟨"ssh-proxy-" ++ remoteAddr ++ "-" ++ toString ts, p2.«Type», p1.Address, (p1.Port : Int)⟩]
  else []

/-- `loopGenerateProxy` over a whole session: one cycle per barrier join, the
emitted configurations concatenated in order.  Each list entry is the arrival
pair of one cycle together with the nanosecond timestamp read at its emission
point. -/
def loopGenerateProxy (remoteAddr : String) : List (PairArrival × Int) → List TCPProxyConfig
  | [] => []
  | (a, ts) :: rest =>
    generateProxyCycle remoteAddr ts (barrierJoin a).1 (barrierJoin a).2 ++
      loopGenerateProxy remoteAddr rest

/-! ## Session close (`Close`, `service.go`) -/

/-- The shared state touched by `Service.Close`: the `exit` flag, the three
internal channels (with how often each was closed), the `sshConn.Wait` call,
the connection closes, and whether a Go panic (close of an already-closed
channel) occurred. -/
structure CloseState where
  exit : Nat
  closeChClosed : Bool
  addrChClosed : Bool
  extraChClosed : Bool
  closeChCloses : Nat
  addrChCloses : Nat
  extraChCloses : Nat
  waits : Nat
  connCloses : Nat
  panicked : Bool
deriving DecidableEq

/-- The state of a fresh service: nothing closed, `exit = 0`. -/
def initClose : CloseState :=
  ⟨0, false, false, false, 0, 0, 0, 0, 0, false⟩

/-- One atomic step of a task executing `Service.Close`, by program counter:
0 `atomic.LoadInt32(&ss.exit)` and early return when 1; 1 the `select` on
`ss.closeCh` and early return when already closed; 2–4 `close` of `closeCh`,
`addrPayloadCh`, `extraPayloadCh` (a Go `close` of a closed channel panics);
5 `ss.sshConn.Wait()`; 6 `sshConn.Close()` and `tcpConn.Close()`; 7
`atomic.StoreInt32(&ss.exit, 1)`.  9 is the return point. -/
def stepClose (g : CloseState) (pc : Nat) : CloseState × Nat :=
  match pc with
  | 0 => if g.exit = 1 then (g, 9) else (g, 1)
  | 1 => if g.closeChClosed then (g, 9) else (g, 2)
  | 2 =>
    if g.closeChClosed then ({ g with panicked := true }, 9)
    else ({ g with closeChClosed := true, closeChCloses := g.closeChCloses + 1 }, 3)
  | 3 =>
    if g.addrChClosed then ({ g with panicked := true }, 9)
    else ({ g with addrChClosed := true, addrChCloses := g.addrChCloses + 1 }, 4)
  | 4 =>
    if g.extraChClosed then ({ g with panicked := true }, 9)
    else ({ g with extraChClosed := true, extraChCloses := g.extraChCloses + 1 }, 5)
  | 5 => ({ g with waits := g.waits + 1 }, 6)
  | 6 => ({ g with connCloses := g.connCloses + 1 }, 7)
  | 7 => ({ g with exit := 1 }, 9)
  | _ => (g, 9)

/-- Run two concurrent invocations of `Close` under a schedule: `true` steps
the first task, `false` the second. -/
def runSched : List Bool → CloseState × Nat × Nat → CloseState × Nat × Nat
  | [], st => st
  | b :: sched, (g, pa, pb) =>
    if b then
      let s := stepClose g pa
      runSched sched (s.1, s.2, pb)
    else
      let s := stepClose g pb
      runSched sched (s.1, pa, s.2)

/-- Run one task executing `Close` to completion (fuel-bounded; the longest
path takes 8 steps). -/
def runTaskFuel : Nat → CloseState → Nat → CloseState
  | 0, g, _ => g
  | f + 1, g, pc =>
    if 9 ≤ pc then g
    else
      let s := stepClose g pc
      runTaskFuel f s.1 s.2

/-- One complete, non-overlapping invocation of `Service.Close`. -/
def closeInvoke (g : CloseState) : CloseState :=
  runTaskFuel 9 g 0

/-! ## Theorems -/

/-- C1: for one Forward Request `{address = A, port = P}` and one Extra Command of kind
"tcp", arriving in either order, the pairing loop emits exactly one configuration of
kind "tcp" whose `LocalIP` is `A`, whose `RemotePort` is `int(P)`, and whose name is
`"ssh-proxy-"` followed by the session's remote address, `"-"`, and the nanosecond
timestamp; afterwards it continues with the next pairing cycle. -/
theorem tcp_pair_single_config (addr : String) (ts : Int) (A : String) (P : Nat)
    (e : ExtraPayload) (rest : List (PairArrival × Int)) (arr : PairArrival)
    (he : e.«Type» = "tcp")
    (harr : arr = .fwdFirst ⟨A, P⟩ e ∨ arr = .extraFirst e ⟨A, P⟩) :
    loopGenerateProxy addr ((arr, ts) :: rest) =
      ⟨"ssh-proxy-" ++ addr ++ "-" ++ toString ts, "tcp", A, (P : Int)⟩ ::
        loopGenerateProxy addr rest := by
  rcases harr with h | h <;> subst h <;>
    simp [loopGenerateProxy, barrierJoin, generateProxyCycle, he]

/-- Witness for C1: the spec's scenario pair, with the Extra Command arriving first. -/
theorem tcp_pair_single_config_witness :
    loopGenerateProxy "1.2.3.4:22"
        ((PairArrival.extraFirst ⟨"tcp", "", 0⟩ ⟨"10.0.0.5", 6000⟩, 42) :: []) =
      ⟨"ssh-proxy-" ++ "1.2.3.4:22" ++ "-" ++ toString (42 : Int), "tcp", "10.0.0.5",
          ((6000 : Nat) : Int)⟩ ::
        loopGenerateProxy "1.2.3.4:22" [] :=
  tcp_pair_single_config "1.2.3.4:22" 42 "10.0.0.5" 6000 ⟨"tcp", "", 0⟩ [] _ rfl
    (Or.inr rfl)

/-- C7: an Extra Command of kind "http" makes its pairing cycle emit no configuration,
and the loop proceeds with the next cycle. -/
theorem http_pair_no_config (addr : String) (ts : Int) (p1 : CmdPayload)
    (e : ExtraPayload) (rest : List (PairArrival × Int)) (arr : PairArrival)
    (he : e.«Type» = "http")
    (harr : arr = .fwdFirst p1 e ∨ arr = .extraFirst e p1) :
    generateProxyCycle addr ts p1 e = [] ∧
    loopGenerateProxy addr ((arr, ts) :: rest) = loopGenerateProxy addr rest := by
  constructor
  · simp [generateProxyCycle, he]
  · rcases harr with h | h <;> subst h <;>
      simp [loopGenerateProxy, barrierJoin, generateProxyCycle, he]

/-- Witness for C7 at a concrete http pair. -/
theorem http_pair_no_config_witness :
    generateProxyCycle "1.2.3.4:22" 42 ⟨"10.0.0.5", 6000⟩ ⟨"http", "", 0⟩ = [] ∧
    loopGenerateProxy "1.2.3.4:22"
        ((PairArrival.fwdFirst ⟨"10.0.0.5", 6000⟩ ⟨"http", "", 0⟩, 42) :: []) =
      loopGenerateProxy "1.2.3.4:22" [] :=
  http_pair_no_config "1.2.3.4:22" 42 ⟨"10.0.0.5", 6000⟩ ⟨"http", "", 0⟩ [] _ rfl
    (Or.inl rfl)

/-- C10: the bare command string "tcp" parses successfully for EVERY behaviour of the
external address/port resolvers (so no validation is consulted), yielding the Extra
Command `{kind "tcp", address "", port 0}`, and the pairing loop then builds the
configuration from the Forward Request's address and port. -/
theorem bare_tcp_command (resolve : String → Option String) (lookup : String → Option Nat)
    (addr : String) (ts : Int) (p1 : CmdPayload) (rest : List (PairArrival × Int)) :
    parseSSHExtraMessage resolve lookup "tcp" = .ok ⟨"tcp", "", 0⟩ ∧
    loopGenerateProxy addr ((.fwdFirst p1 ⟨"tcp", "", 0⟩, ts) :: rest) =
      ⟨"ssh-proxy-" ++ addr ++ "-" ++ toString ts, "tcp", p1.Address, (p1.Port : Int)⟩ ::
        loopGenerateProxy addr rest := by
  constructor
  · rfl
  · simp [loopGenerateProxy, barrierJoin, generateProxyCycle]

/-- C3 (amended): a sideband payload of at most 4 bytes, or whose WHOLE payload — the
4-byte length prefix included — contains neither "tcp" nor "http", never reaches
`parseSSHExtraMessage`, and the channel reader continues with the next request. -/
theorem unrelated_payload_skipped (resolve : String → Option String)
    (lookup : String → Option Nat) (r : List Nat) (rs : List (List Nat))
    (h : r.length ≤ 4 ∨ (containsSub r tcpBytes = false ∧ containsSub r httpBytes = false)) :
    reachesParse r = false ∧
    sidebandReader resolve lookup (r :: rs) = sidebandReader resolve lookup rs := by
  have hf : passesFilter r = false := by
    rcases h with h | ⟨h1, h2⟩
    · have : decide (4 < r.length) = false := by
        simp only [decide_eq_false_iff_not]
        omega
      simp [passesFilter, this]
    · simp [passesFilter, h1, h2]
  exact ⟨by simp [reachesParse, hf], by simp [sidebandReader, hf]⟩

/-- Witness for C3 (amended) at a 3-byte payload. -/
theorem unrelated_payload_skipped_witness :
    reachesParse [1, 2, 3] = false ∧
    sidebandReader resolveIPAddr lookupPort ([1, 2, 3] :: []) =
      sidebandReader resolveIPAddr lookupPort [] :=
  unrelated_payload_skipped resolveIPAddr lookupPort [1, 2, 3] [] (Or.inl (by decide))

/-- C3 counterexample: the code's substring filter inspects the whole payload, prefix
included, so the payload whose 4 prefix bytes spell "tcp"+5 and whose command string
is "ab" — which contains neither "tcp" nor "http" — does reach
`parseSSHExtraMessage`, contradicting the claim as stated. -/
theorem body_filter_counterexample :
    reachesParse [116, 99, 112, 5, 97, 98] = true ∧
    extractCommand [116, 99, 112, 5, 97, 98] = some [97, 98] ∧
    containsSub [97, 98] tcpBytes = false ∧
    containsSub [97, 98] httpBytes = false := by decide

/-- C4: extraction is NOT total — a declared big-endian length of `2 ^ 32 - 1` makes
`4 + length` wrap to 3 in `uint32` arithmetic, bypassing the truncation test
(`3 > 7` is false), and the Go slice `payload[4:3]` panics (modelled `none`),
although the payload passes the substring filter.  The spec's intended truncation
would have returned the command string "tcp". -/
theorem extract_overflow_panic :
    passesFilter ([255, 255, 255, 255] ++ tcpBytes) = true ∧
    extractCommand ([255, 255, 255, 255] ++ tcpBytes) = none ∧
    ([255, 255, 255, 255] ++ tcpBytes).drop 4 = tcpBytes := by decide

/-- C2: with the identity cipher (a legitimate instance of the external cipher pair),
the framed stream for `b = [1, 2, 3]` is `[0, 0, 0, 3, 1, 2, 3]`; delivered split
into two reads, `PipeDecrypt` writes `[]` instead of `b` — the shadowed accumulator
drops partial frames — and one read holding two complete frames yields only the
first frame's plaintext, dropping the remainder. -/
theorem pipe_decrypt_drops_data :
    PipeEncrypt (fun x => x) [[1, 2, 3]] = [0, 0, 0, 3, 1, 2, 3] ∧
    [0, 0, 0, 3, 1, 2] ++ [3] = PipeEncrypt (fun x => x) [[1, 2, 3]] ∧
    PipeDecrypt (fun x => x) [[0, 0, 0, 3, 1, 2], [3]] = [] ∧
    PipeEncrypt (fun x => x) [[1], [2]] = [0, 0, 0, 1, 1, 0, 0, 0, 1, 2] ∧
    PipeDecrypt (fun x => x) [[0, 0, 0, 1, 1, 0, 0, 0, 1, 2]] = [1] := by decide

/-- C9: `ParseHTTPCommand` hands `params[2:]` to the flag parser, so on the grammar's
own form the scan starts AT the domain value, which is not a flag, and parsing stops
immediately: the result has an empty `Domain` and no basic-auth split, instead of
`Domain = "test.example.com"`, user "alice", pass "secret".  (The under-two-tokens
error of the claim does hold.) -/
theorem http_domain_flag_skipped :
    ParseHTTPCommand ["http", "-domain", "test.example.com", "-basic-auth", "alice:secret"] =
      .ok ⟨"", "", ""⟩ ∧
    ParseHTTPCommand ["http"] = .error "invalid HTTP command" ∧
    ParseHTTPCommand ["http", "x", "-domain", "test.example.com", "-basic-auth", "alice:secret"] =
      .ok ⟨"test.example.com", "alice", "secret"⟩ :=
  ⟨rfl, rfl, rfl⟩

/-- Any run of the sideband reader hands over at most one Extra Command. -/
theorem sidebandReader_length_le_one (resolve : String → Option String)
    (lookup : String → Option Nat) (rs : List (List Nat)) :
    (sidebandReader resolve lookup rs).length ≤ 1 := by
  induction rs with
  | nil => simp [sidebandReader]
  | cons r rest ih =>
    simp only [sidebandReader]
    by_cases hf : passesFilter r
    · simp only [hf, if_true]
      split
      · simp
      · split
        · exact ih
        · simp
    · simpa [hf] using ih

/-- C5: per data channel, at most one Extra Command is ever handed to the pairing
loop; the reader terminates right after the first payload that parses successfully,
and on a parse failure it continues reading the further requests of that channel. -/
theorem at_most_one_extra_command (resolve : String → Option String)
    (lookup : String → Option Nat) (rs : List (List Nat)) :
    (sidebandReader resolve lookup rs).length ≤ 1 ∧
    (∀ r rest cmd msg, passesFilter r = true → extractCommand r = some cmd →
      parseSSHExtraMessage resolve lookup (strOfBytes cmd) = .ok msg →
      sidebandReader resolve lookup (r :: rest) = [msg]) ∧
    (∀ r rest cmd e, passesFilter r = true → extractCommand r = some cmd →
      parseSSHExtraMessage resolve lookup (strOfBytes cmd) = .error e →
      sidebandReader resolve lookup (r :: rest) = sidebandReader resolve lookup rest) := by
  refine ⟨sidebandReader_length_le_one resolve lookup rs, ?_, ?_⟩
  · intro r rest cmd msg hf hx hp
    simp [sidebandReader, hf, hx, hp]
  · intro r rest cmd e hf hx hp
    simp [sidebandReader, hf, hx, hp]

/-- Witness for C5: the payload for "tcpX" fails to parse ("only support tcp/http")
and the reader continues. -/
theorem at_most_one_extra_command_witness :
    sidebandReader resolveIPAddr lookupPort (mkSidebandPayload "tcpX" :: []) =
      sidebandReader resolveIPAddr lookupPort [] :=
  (at_most_one_extra_command resolveIPAddr lookupPort []).2.2 (mkSidebandPayload "tcpX")
    [] (bytesOfStr "tcpX") "only support tcp/http now" (by decide) (by decide) rfl

/-- C8: a tcp command whose `-address` value the external resolver rejects, or whose
`-port` value the external port lookup rejects, makes `ParseTCPCommand` return a
descriptive error — for EVERY behaviour of the external resolvers — and the concrete
scenario "tcp -address not-an-ip -port 70000" is dropped by the channel reader,
which continues with the next request and hands nothing to the pairing loop. -/
theorem invalid_tcp_command_dropped (resolve : String → Option String)
    (lookup : String → Option Nat) (a p : String)
    (h : resolve a = none ∨ lookup p = none) :
    (∃ e, ParseTCPCommand resolve lookup ["tcp", "-address", a, "-port", p] =
      .error e) ∧
    (∀ rs, sidebandReader resolveIPAddr lookupPort
        (mkSidebandPayload "tcp -address not-an-ip -port 70000" :: rs) =
      sidebandReader resolveIPAddr lookupPort rs) := by
  constructor
  · have key : ParseTCPCommand resolve lookup ["tcp", "-address", a, "-port", p] =
        (match resolve a with
         | none => .error "resolve ip error"
         | some parsedAddr =>
           match lookup p with
           | none => .error "lookup port error"
           | some _ => .ok ⟨parsedAddr, p⟩) := rfl
    rcases h with hr | hl
    · exact ⟨"resolve ip error", by rw [key, hr]⟩
    · cases hra : resolve a with
      | none => exact ⟨"resolve ip error", by rw [key, hra]⟩
      | some pa => exact ⟨"lookup port error", by rw [key, hra, hl]⟩
  · intro rs
    have hf : passesFilter (mkSidebandPayload "tcp -address not-an-ip -port 70000") =
        true := by decide
    have hx : extractCommand (mkSidebandPayload "tcp -address not-an-ip -port 70000") =
        some (bytesOfStr "tcp -address not-an-ip -port 70000") := by decide
    have hp : parseSSHExtraMessage resolveIPAddr lookupPort
        (strOfBytes (bytesOfStr "tcp -address not-an-ip -port 70000")) =
        .error "invalid ssh input: resolve ip error" := rfl
    simp [sidebandReader, hf, hx, hp]

/-- Witness for C8: the spec's scenario, with the spec-modelled resolvers. -/
theorem invalid_tcp_command_dropped_witness :
    (∃ e, ParseTCPCommand resolveIPAddr lookupPort
        ["tcp", "-address", "not-an-ip", "-port", "70000"] = .error e) ∧
    (∀ rs, sidebandReader resolveIPAddr lookupPort
        (mkSidebandPayload "tcp -address not-an-ip -port 70000" :: rs) =
      sidebandReader resolveIPAddr lookupPort rs) :=
  invalid_tcp_command_dropped resolveIPAddr lookupPort "not-an-ip" "70000"
    (Or.inl (by decide))

/-- C6 counterexample: two overlapping invocations of `Close` can both pass the
exit-flag load and the `select` on `closeCh` before either closes it; the second
`close(ss.closeCh)` then panics — the invocation after the first is not a no-op and
the teardown does not run cleanly exactly once. -/
theorem close_race_counterexample :
    (runSched [true, true, false, false, true, false] (initClose, 0, 0)).1.panicked =
      true := by decide

/-- C6 (amended): for sequential (non-overlapping) invocations `Close` is idempotent
and single-shot — the first invocation closes `closeCh`, `addrPayloadCh` and
`extraPayloadCh` exactly once each, waits on the transport once, closes the secure
and raw connections once, sets the exit flag and panics nowhere; iterating further
invocations leaves the state unchanged. -/
theorem close_sequential_idempotent (n : Nat) :
    closeInvoke initClose = ⟨1, true, true, true, 1, 1, 1, 1, 1, false⟩ ∧
    Nat.iterate closeInvoke (n + 1) initClose = closeInvoke initClose := by
  have hfix : closeInvoke (closeInvoke initClose) = closeInvoke initClose := by decide
  have fix : ∀ m, Nat.iterate closeInvoke m (closeInvoke initClose) =
      closeInvoke initClose := by
    intro m
    induction m with
    | zero => rfl
    | succ k ih =>
      have hstep : Nat.iterate closeInvoke (k + 1) (closeInvoke initClose) =
          Nat.iterate closeInvoke k (closeInvoke (closeInvoke initClose)) := rfl
      rw [hstep, hfix, ih]
  refine ⟨by decide, ?_⟩
  have hstep : Nat.iterate closeInvoke (n + 1) initClose =
      Nat.iterate closeInvoke n (closeInvoke initClose) := rfl
  rw [hstep, fix n]
